import Mathlib

/-!
Verification of the Robco voice-interaction robot against its
natural-language specification.

The development shallowly embeds the Python sources:

* `src/core/state_machine.py` / `src/core/controller.py` — the robot
  state machine and the `RobotController` orchestrator.  The controller's
  mutable attributes become the fields of `CtrlState`; each `async`
  handler becomes a state-transforming function.  Outcomes of races
  between concurrently awaited tasks (wake event vs. stop signal,
  receive loop vs. timeout monitor) and of external calls (personality
  lookup, session connect) are passed in as explicit oracle arguments,
  which is the standard shallow embedding of cooperative concurrency:
  handlers are atomic between `await` points, and an oracle records
  which awaited task finished first.
* `src/audio/playback.py` — `AudioPlaybackStream` as a small-step event
  system (`PlaybackState`, `pbStep`) whose events are the atomic actions
  of `play_chunk`, `flush`, `stop` and of the background `_drain_loop`,
  plus a direct functional model of the drain loop (`drain_loop`).
* `src/audio/capture.py` — `AudioCaptureStream` start/stop effects on
  the microphone.
* `src/tools/server.py` — `ToolServer` registry, declaration generation
  and tool execution.
* `src/gemini/session.py` — the connection guards of `GeminiSession`.
-/

namespace Robco

/-! ## State machine (`src/core/state_machine.py`) -/

/-- `RobotState` enum from `src/core/state_machine.py`. -/
inductive RobotState where
  | IDLE
  | CONNECTING
  | CONVERSATION
  | SHUTTING_DOWN
deriving DecidableEq, Repr

/-! ## Personality data (`src/personality/manager.py`) -/

/-- `PersonalityConfig` dataclass from `src/personality/manager.py`. -/
structure PersonalityConfig where
  name : String
  voice : String
  system_prompt : String
  description : String
  conversation_timeout_seconds : Nat
  vad_sensitivity : String
deriving DecidableEq, Repr

/-! ## Controller state (`src/core/controller.py`)

The mutable attributes of `RobotController` (together with the state of
the hardware handles it owns) are collected in one record.  Booleans
track `_running`, whether `_stop_event` is an `asyncio.Event` (set by
`start`) and whether that event has been set, the wake detector's
`_listening` flag, whether the shared `AudioInput` / `AudioOutput`
streams are open, whether `_session` is not `None` and whether that
session object reports `is_connected`. -/

structure CtrlState where
  state : RobotState
  running : Bool
  stopEventPresent : Bool
  stopEventSet : Bool
  wakeListening : Bool
  micOpen : Bool
  speakerOpen : Bool
  sessionPresent : Bool
  sessionConnected : Bool
  conversation_timeout : Nat
deriving DecidableEq, Repr

/-- Controller state as constructed by `RobotController.__init__`:
IDLE, not running, no stop event yet, nothing open. -/
def CtrlState.initial (timeout : Nat) : CtrlState :=
  { state := RobotState.IDLE
    running := false
    stopEventPresent := false
    stopEventSet := false
    wakeListening := false
    micOpen := false
    speakerOpen := false
    sessionPresent := false
    sessionConnected := false
    conversation_timeout := timeout }

/-- `WakeWordDetector.stop` (`src/wake_word/detector.py` lines 80-89):
clears `_listening`, cancels the task, and closes the shared audio
input stream if it is open. -/
def wakeDetectorStop (s : CtrlState) : CtrlState :=
  let s1 := { s with wakeListening := false }
  if s1.micOpen then { s1 with micOpen := false } else s1

/-- `WakeWordDetector.start` (`src/wake_word/detector.py` lines 53-78):
no-op when already listening; otherwise loads the model, opens the
audio input stream if it is closed, and begins listening. -/
def wakeDetectorStart (s : CtrlState) : CtrlState :=
  if s.wakeListening then s
  else { s with wakeListening := true, micOpen := true }

namespace RobotController

/-- `RobotController.stop` (`src/core/controller.py` lines 104-111):
clears `_running`, sets `_stop_event` when one exists, stops the wake
detector, and closes the session when one is present and connected.
Every sub-operation is guarded in the source (`if self._stop_event`,
`if self._task is not None`, `if ... is_open()`,
`if self._session and self._session.is_connected`), so `stop` is a
total function of the controller state: no call pattern raises. -/
def stop (s : CtrlState) : CtrlState :=
  let s1 := { s with running := false }
  let s2 := if s1.stopEventPresent then { s1 with stopEventSet := true } else s1
  let s3 := wakeDetectorStop s2
  if s3.sessionPresent && s3.sessionConnected then
    { s3 with sessionConnected := false }
  else s3

/-- `RobotController._cleanup` (`src/core/controller.py` lines 334-345):
stop the wake detector, close the session if connected, close the audio
input if open, stop the audio output if open, clear the display. -/
def cleanup (s : CtrlState) : CtrlState :=
  let s1 := wakeDetectorStop s
  let s2 :=
    if s1.sessionPresent && s1.sessionConnected then
      { s1 with sessionConnected := false }
    else s1
  let s3 := if s2.micOpen then { s2 with micOpen := false } else s2
  if s3.speakerOpen then { s3 with speakerOpen := false } else s3

/-- The `finally` block of `RobotController.start` (lines 99-102):
mark `SHUTTING_DOWN`, then run `_cleanup`. -/
def finalize (s : CtrlState) : CtrlState :=
  cleanup { s with state := RobotState.SHUTTING_DOWN }

/-- `RobotController._run_idle` (`src/core/controller.py` lines 122-140).

The wake detector is started, then `_wait_for_event_or_stop` suspends
until the wake-event task or the stop-event task completes
(`asyncio.wait` with `FIRST_COMPLETED`, lines 305-332); its result
`woke` is `event_task in done`.  Oracle arguments describe that race:
`stopDuringWait` is true when `RobotController.stop` ran while the
handler was suspended (which is the only way the stop event fires), and
`wakeWon` is the returned `woke`, i.e. whether the wake-event task was
among the completed tasks.  Afterwards the detector is stopped and the
transition to CONNECTING happens only if `woke and self._running`. -/
def run_idle (stopDuringWait wakeWon : Bool) (s : CtrlState) : CtrlState :=
  let s1 := wakeDetectorStart s
  let s2 := if stopDuringWait then stop s1 else s1
  let s3 := wakeDetectorStop s2
  if wakeWon && s3.running then { s3 with state := RobotState.CONNECTING } else s3

/-- `RobotController._run_connecting` (`src/core/controller.py` lines
142-186).  `lookup` is the outcome of resolving the configured default
personality with fallback (lines 149-163): `none` when even the
fallback is unavailable, in which case the handler returns to IDLE
without attempting a connection.  Otherwise a fresh session object is
stored, the conversation timeout is taken from the personality, and
`connect` is attempted; `connectOk` is its outcome.  On success the
state becomes CONVERSATION; on failure `_session` is cleared and the
state returns to IDLE. -/
def run_connecting (lookup : Option PersonalityConfig) (connectOk : Bool)
    (s : CtrlState) : CtrlState :=
  match lookup with
  | none => { s with state := RobotState.IDLE }
  | some personality =>
      let s1 := { s with
        sessionPresent := true
        sessionConnected := false
        conversation_timeout := personality.conversation_timeout_seconds }
      if connectOk then
        { s1 with sessionConnected := true, state := RobotState.CONVERSATION }
      else
        { s1 with sessionPresent := false, state := RobotState.IDLE }

/-- `RobotController._run_conversation` (`src/core/controller.py` lines
188-230).  Capture is started (opening the microphone), then the
receive loop races the timeout monitor (`asyncio.wait`,
`FIRST_COMPLETED`); `monitorFired` records whether the timeout monitor
completed first, in which case the still-pending receive task is the
one that is cancelled and awaited.  The `finally` block then stops
capture (closing the microphone), stops playback (stopping the
speaker), closes the session if still connected, clears `_session`,
and sets the state back to IDLE.  Returns the new controller state and
whether the receive task was cancelled. -/
def run_conversation (monitorFired : Bool) (s : CtrlState) : CtrlState × Bool :=
  let s1 := { s with micOpen := true }
  let s2 := { s1 with micOpen := false }
  let s3 := if s2.speakerOpen then { s2 with speakerOpen := false } else s2
  let s4 :=
    if s3.sessionPresent && s3.sessionConnected then
      { s3 with sessionConnected := false }
    else s3
  ({ s4 with sessionPresent := false, state := RobotState.IDLE }, monitorFired)

end RobotController

/-- Oracle inputs consumed by one iteration of the controller's main
loop: the outcomes of the races and external calls inside whichever
state handler runs. -/
structure EnvInput where
  stopDuringWait : Bool
  wakeWon : Bool
  personalityLookup : Option PersonalityConfig
  connectOk : Bool
  monitorFired : Bool

/-- One dispatch of the body of the `while self._running` loop in
`RobotController.start` (lines 88-96). -/
def RobotController.dispatch (e : EnvInput) (s : CtrlState) : CtrlState :=
  match s.state with
  | RobotState.IDLE => RobotController.run_idle e.stopDuringWait e.wakeWon s
  | RobotState.CONNECTING =>
      RobotController.run_connecting e.personalityLookup e.connectOk s
  | RobotState.CONVERSATION => (RobotController.run_conversation e.monitorFired s).1
  | RobotState.SHUTTING_DOWN => s

/-- The main loop of `RobotController.start` (lines 87-102): while
`_running`, dispatch on the current state (any state other than the
three dispatchable ones breaks out); on exit run the `finally` block
(`finalize`).  The oracle list supplies one `EnvInput` per iteration;
when it runs out while the controller is still running, the still-live
state is returned unfinalized. -/
def RobotController.start_loop : List EnvInput → CtrlState → CtrlState
  | [], s => if s.running then s else RobotController.finalize s
  | e :: rest, s =>
      if s.running then
        if s.state = RobotState.SHUTTING_DOWN then RobotController.finalize s
        else RobotController.start_loop rest (RobotController.dispatch e s)
      else RobotController.finalize s

/-- The assignments at the top of `RobotController.start` (lines 82-84):
`_running := True`, a fresh (unset) `_stop_event`, state `IDLE`. -/
def RobotController.start_init (s : CtrlState) : CtrlState :=
  { s with running := true, stopEventPresent := true, stopEventSet := false,
           state := RobotState.IDLE }

/-! ### Field lemmas for the controller handlers -/

theorem wakeDetectorStart_state (s : CtrlState) :
    (wakeDetectorStart s).state = s.state := by
  unfold wakeDetectorStart; split_ifs <;> rfl

theorem wakeDetectorStart_running (s : CtrlState) :
    (wakeDetectorStart s).running = s.running := by
  unfold wakeDetectorStart; split_ifs <;> rfl

theorem wakeDetectorStop_state (s : CtrlState) :
    (wakeDetectorStop s).state = s.state := by
  unfold wakeDetectorStop; dsimp only; split_ifs <;> rfl

theorem wakeDetectorStop_running (s : CtrlState) :
    (wakeDetectorStop s).running = s.running := by
  unfold wakeDetectorStop; dsimp only; split_ifs <;> rfl

theorem RobotController.stop_state (s : CtrlState) :
    (RobotController.stop s).state = s.state := by
  unfold RobotController.stop wakeDetectorStop; dsimp only; split_ifs <;> rfl

theorem RobotController.stop_running (s : CtrlState) :
    (RobotController.stop s).running = false := by
  unfold RobotController.stop wakeDetectorStop; dsimp only; split_ifs <;> rfl

theorem RobotController.cleanup_state (s : CtrlState) :
    (RobotController.cleanup s).state = s.state := by
  unfold RobotController.cleanup wakeDetectorStop; dsimp only; split_ifs <;> rfl

theorem RobotController.finalize_state (s : CtrlState) :
    (RobotController.finalize s).state = RobotState.SHUTTING_DOWN := by
  unfold RobotController.finalize
  rw [RobotController.cleanup_state]

/-- C1: The controller transitions IDLE → CONNECTING from `_run_idle`
exactly when the wake event won the race (`woke` is true) and the
controller is still running (no stop ran during the wait); if stop
fired during the wait, the state remains IDLE when `_run_idle`
returns. -/
theorem run_idle_transition (s : CtrlState) (stopDuringWait wakeWon : Bool)
    (hIdle : s.state = RobotState.IDLE) (hRun : s.running = true) :
    ((RobotController.run_idle stopDuringWait wakeWon s).state
        = RobotState.CONNECTING ↔ wakeWon = true ∧ stopDuringWait = false) ∧
    (stopDuringWait = true →
      (RobotController.run_idle stopDuringWait wakeWon s).state
        = RobotState.IDLE) := by
  unfold RobotController.run_idle
  cases stopDuringWait <;> cases wakeWon <;>
    simp [wakeDetectorStop_state, wakeDetectorStop_running,
      wakeDetectorStart_state, wakeDetectorStart_running,
      RobotController.stop_state, RobotController.stop_running, hIdle, hRun]

/-- Witness for `run_idle_transition` at a freshly started controller. -/
theorem run_idle_transition_witness :
    ((RobotController.run_idle false true
        (RobotController.start_init (CtrlState.initial 30))).state
        = RobotState.CONNECTING ↔ true = true ∧ false = false) ∧
    (false = true →
      (RobotController.run_idle false true
        (RobotController.start_init (CtrlState.initial 30))).state
        = RobotState.IDLE) :=
  run_idle_transition (RobotController.start_init (CtrlState.initial 30))
    false true (by rfl) (by rfl)

/-- C2: From any controller state (in particular every reachable one),
calling `stop` makes the main loop finish in SHUTTING_DOWN — whatever
oracle inputs drive the remaining iterations — and `stop` is
idempotent, so repeated calls change nothing (every sub-operation of
`stop` is guarded in the source, so it is a total function of the
state: calling it at any state, including before `start`, cannot
raise). -/
theorem stop_ends_in_shutting_down (envs : List EnvInput) (s : CtrlState) :
    (RobotController.start_loop envs (RobotController.stop s)).state
        = RobotState.SHUTTING_DOWN ∧
    RobotController.stop (RobotController.stop s) = RobotController.stop s := by
  constructor
  · have hrun : (RobotController.stop s).running = false :=
      RobotController.stop_running s
    cases envs <;>
      simp [RobotController.start_loop, hrun, RobotController.finalize_state]
  · rcases s with ⟨st, run, sep, ses, wl, mic, spk, sp, sc, ct⟩
    unfold RobotController.stop wakeDetectorStop
    cases sep <;> cases mic <;> cases sp <;> cases sc <;> rfl

/-! ### Timeout monitor (`src/core/controller.py` lines 290-299) -/

/-- `RobotController._timeout_monitor`: while `_running` and the state
is CONVERSATION, sleep one second (modelled as `now + 1`), then return
once `now - last_activity >= conversation_timeout`.  `fuel` bounds the
number of polls; the result is `true` when the monitor returned because
the silence timeout was reached, and `false` when the loop exited for
another reason (or the fuel ran out first).  `running`, the state and
`last_activity` are held fixed, which models the claimed scenario: no
activity-refreshing message arrives and nothing stops the
controller. -/
def timeout_monitor (running : Bool) (st : RobotState)
    (last_activity timeout : Nat) : Nat → Nat → Bool
  | 0, _ => false
  | fuel + 1, now =>
      if running = true ∧ st = RobotState.CONVERSATION then
        if timeout ≤ (now + 1) - last_activity then true
        else timeout_monitor running st last_activity timeout fuel (now + 1)
      else false

theorem timeout_monitor_fires_of (la timeout : Nat) :
    ∀ fuel now : Nat, la ≤ now → timeout ≤ (now - la) + fuel → 1 ≤ fuel →
      timeout_monitor true RobotState.CONVERSATION la timeout fuel now = true := by
  intro fuel
  induction fuel with
  | zero => intro now _ _ h1; omega
  | succ f ih =>
      intro now hla hfuel _
      by_cases hc : timeout ≤ (now + 1) - la
      · simp [timeout_monitor, hc]
      · have hlt : (now + 1) - la < timeout := by omega
        have hf : 1 ≤ f := by omega
        have hrec := ih (now + 1) (by omega) (by omega) hf
        simp [timeout_monitor, hc, hrec]

/-- C3: With no activity-refreshing message (so `_last_activity` stays
fixed) and the controller left running in CONVERSATION, the timeout
monitor — polling once per simulated second — returns `true` (timed
out) as soon as the elapsed silence reaches `conversation_timeout`,
needing no more polls than the timeout itself, regardless of the
receive loop (which never has to complete); and `_run_conversation`,
with the monitor the winner of the race, cancels the still-pending
receive task (second component `true`) and its `finally` cleanup
clears the session handle and returns the controller to IDLE. -/
theorem silence_timeout_returns_to_idle (s : CtrlState)
    (la timeout fuel : Nat) (_hconv : s.state = RobotState.CONVERSATION)
    (ht : 1 ≤ timeout) (hfuel : timeout ≤ fuel) :
    timeout_monitor true RobotState.CONVERSATION la timeout fuel la = true ∧
    (RobotController.run_conversation true s).2 = true ∧
    (RobotController.run_conversation true s).1.state = RobotState.IDLE ∧
    (RobotController.run_conversation true s).1.sessionPresent = false := by
  exact ⟨timeout_monitor_fires_of la timeout fuel la le_rfl (by omega) (by omega),
    rfl, rfl, rfl⟩

/-- Witness for `silence_timeout_returns_to_idle`: a controller mid
conversation with a 30-second personality timeout, polled with fuel
30. -/
theorem silence_timeout_returns_to_idle_witness :
    timeout_monitor true RobotState.CONVERSATION 0 30 30 0 = true ∧
    (RobotController.run_conversation true
      { CtrlState.initial 30 with
        state := RobotState.CONVERSATION
        running := true
        sessionPresent := true
        sessionConnected := true }).2
      = true ∧
    (RobotController.run_conversation true
      { CtrlState.initial 30 with
        state := RobotState.CONVERSATION
        running := true
        sessionPresent := true
        sessionConnected := true }).1.state
      = RobotState.IDLE ∧
    (RobotController.run_conversation true
      { CtrlState.initial 30 with
        state := RobotState.CONVERSATION
        running := true
        sessionPresent := true
        sessionConnected := true }).1.sessionPresent
      = false :=
  silence_timeout_returns_to_idle
    { CtrlState.initial 30 with
      state := RobotState.CONVERSATION
      running := true
      sessionPresent := true
      sessionConnected := true }
    0 30 30 (by rfl) (by omega) (by omega)

/-- C4: When `_run_connecting` attempts a connection (the personality
lookup produced one), the state becomes CONVERSATION iff the session
`connect` succeeded and IDLE iff it failed, and on failure the stored
session handle is cleared. -/
theorem connecting_transition (personality : PersonalityConfig)
    (connectOk : Bool) (s : CtrlState)
    (_hs : s.state = RobotState.CONNECTING) :
    ((RobotController.run_connecting (some personality) connectOk s).state
        = RobotState.CONVERSATION ↔ connectOk = true) ∧
    ((RobotController.run_connecting (some personality) connectOk s).state
        = RobotState.IDLE ↔ connectOk = false) ∧
    (connectOk = false →
      (RobotController.run_connecting (some personality) connectOk s).sessionPresent
        = false) := by
  cases connectOk <;> simp [RobotController.run_connecting]

/-- Witness for `connecting_transition` at a concrete personality and a
controller sitting in CONNECTING. -/
theorem connecting_transition_witness :
    ((RobotController.run_connecting
        (some ⟨"friendly", "Kore", "You are a robot.", "", 30, "MEDIUM"⟩) false
        { CtrlState.initial 30 with state := RobotState.CONNECTING }).state
        = RobotState.CONVERSATION ↔ false = true) ∧
    ((RobotController.run_connecting
        (some ⟨"friendly", "Kore", "You are a robot.", "", 30, "MEDIUM"⟩) false
        { CtrlState.initial 30 with state := RobotState.CONNECTING }).state
        = RobotState.IDLE ↔ false = false) ∧
    (false = false →
      (RobotController.run_connecting
        (some ⟨"friendly", "Kore", "You are a robot.", "", 30, "MEDIUM"⟩) false
        { CtrlState.initial 30 with state := RobotState.CONNECTING }).sessionPresent
        = false) :=
  connecting_transition ⟨"friendly", "Kore", "You are a robot.", "", 30, "MEDIUM"⟩
    false { CtrlState.initial 30 with state := RobotState.CONNECTING } (by rfl)

/-! ## Playback pipeline (`src/audio/playback.py`)

`AudioPlaybackStream` owns an `asyncio.Queue` of PCM chunks (with
`None` used as the flush sentinel) drained by a background
`_drain_loop` task.  Frames are identified by the order in which
`play_chunk` enqueued them (`nextId` counts enqueues); a size function
maps a frame id to its byte count when byte totals matter.  -/

/-- An entry of the playback queue: a PCM chunk (identified by its
enqueue index) or the `None` flush sentinel. -/
inductive PbItem where
  | frame (id : Nat)
  | sentinel
deriving DecidableEq, Repr

/-- The observable state of one `AudioPlaybackStream` plus its drain
task: the queue contents, the ids already written to the speaker (in
write order), `_playing`, whether the drain task is alive, whether the
speaker stream is open, and the number of chunks enqueued so far. -/
structure PlaybackState where
  queue : List PbItem
  written : List Nat
  playing : Bool
  taskAlive : Bool
  speakerOpen : Bool
  nextId : Nat
deriving DecidableEq, Repr

/-- Fresh `AudioPlaybackStream` (constructor, lines 32-43). -/
def PlaybackState.init : PlaybackState :=
  { queue := [], written := [], playing := false, taskAlive := false,
    speakerOpen := false, nextId := 0 }

/-- Atomic actions on a playback stream.  `play_chunk`, `flush` and
`stop` are the public operations (lines 45-70 and 102-115); the three
`drain` events are the atomic steps of the background `_drain_loop`
(lines 122-171): writing one dequeued chunk to the speaker, consuming
the sentinel (loop exit, `finally` clears `_playing`), or a
`wait_for` timeout (same exit path).  Interleavings of these events
are exactly the cooperative schedules of the event loop. -/
inductive PbEvent where
  | play_chunk
  | flush
  | drainFrame
  | drainSentinel
  | drainTimeout
  | stop
deriving DecidableEq, Repr

/-- `AudioPlaybackStream.play_chunk` (lines 45-61): on the first call
(`not self._playing`) open the speaker and start the drain task, then
enqueue the chunk (its id is the enqueue counter). -/
def play_chunk (s : PlaybackState) : PlaybackState :=
  let s1 :=
    if s.playing then s
    else { s with playing := true, taskAlive := true, speakerOpen := true }
  { s1 with queue := s1.queue ++ [PbItem.frame s1.nextId],
            nextId := s1.nextId + 1 }

/-- `AudioPlaybackStream.flush` (lines 63-70): enqueue the `None`
sentinel while the drain task is alive (then await the task; awaiting
is represented by subsequent drain events). -/
def flushEnqueue (s : PlaybackState) : PlaybackState :=
  if s.taskAlive then { s with queue := s.queue ++ [PbItem.sentinel] } else s

/-- One write step of `_drain_loop` (lines 144-149 and 151-165): the
loop dequeues the head chunk and writes it to the speaker.  Both
phases check `self._playing` immediately before the write, so this is
a no-op once playback has been stopped. -/
def drainWrite (s : PlaybackState) : PlaybackState :=
  if s.taskAlive && s.playing then
    match s.queue with
    | PbItem.frame i :: rest =>
        { s with queue := rest, written := s.written ++ [i] }
    | _ => s
  else s

/-- `_drain_loop` consumes the `None` sentinel and exits; the
`finally` block clears `_playing` (lines 139-140, 158-159, 170-171). -/
def drainSentinelExit (s : PlaybackState) : PlaybackState :=
  if s.taskAlive then
    match s.queue with
    | PbItem.sentinel :: rest =>
        { s with queue := rest, taskAlive := false, playing := false }
    | _ => s
  else s

/-- `_drain_loop` exits after `asyncio.wait_for` times out; the
`finally` block clears `_playing` (lines 137-138, 156-157, 170-171). -/
def drainTimeoutExit (s : PlaybackState) : PlaybackState :=
  if s.taskAlive then { s with taskAlive := false, playing := false } else s

/-- `AudioPlaybackStream.stop` (lines 102-115): clear `_playing`,
discard every queued item via `get_nowait`, cancel the drain task,
stop the speaker output. -/
def pbStop (s : PlaybackState) : PlaybackState :=
  { s with playing := false, queue := [], taskAlive := false }

/-- One atomic step of the cooperative schedule. -/
def pbStep (s : PlaybackState) : PbEvent → PlaybackState
  | PbEvent.play_chunk => play_chunk s
  | PbEvent.flush => flushEnqueue s
  | PbEvent.drainFrame => drainWrite s
  | PbEvent.drainSentinel => drainSentinelExit s
  | PbEvent.drainTimeout => drainTimeoutExit s
  | PbEvent.stop => pbStop s

/-- Run a schedule of playback events. -/
def pbRun (s : PlaybackState) (tr : List PbEvent) : PlaybackState :=
  tr.foldl pbStep s

/-- The chunk ids in a queue, in order, skipping sentinels. -/
def frameIds : List PbItem → List Nat
  | [] => []
  | PbItem.frame i :: rest => i :: frameIds rest
  | PbItem.sentinel :: rest => frameIds rest

theorem frameIds_append (a b : List PbItem) :
    frameIds (a ++ b) = frameIds a ++ frameIds b := by
  induction a with
  | nil => rfl
  | cons x rest ih => cases x <;> simp [frameIds, ih]

theorem pbRun_append (s : PlaybackState) (a b : List PbEvent) :
    pbRun s (a ++ b) = pbRun (pbRun s a) b :=
  List.foldl_append pbStep s a b

/-- Written chunks followed by still-queued chunks form a sublist of
the enqueue history: nothing is written or queued that was not
enqueued, each at most once, in enqueue order. -/
def PbInv (s : PlaybackState) : Prop :=
  (s.written ++ frameIds s.queue).Sublist (List.range s.nextId)

theorem pbInv_init : PbInv PlaybackState.init := by
  simp [PbInv, PlaybackState.init, frameIds]

theorem pbInv_play_chunk (s : PlaybackState) (h : PbInv s) :
    PbInv (play_chunk s) := by
  obtain ⟨q, w, p, t, sp, n⟩ := s
  unfold PbInv play_chunk at *
  dsimp only at *
  split_ifs <;>
  · dsimp only
    rw [frameIds_append, List.range_succ, ← List.append_assoc]
    exact List.Sublist.append h (by simp [frameIds])

theorem pbInv_flushEnqueue (s : PlaybackState) (h : PbInv s) :
    PbInv (flushEnqueue s) := by
  obtain ⟨q, w, p, t, sp, n⟩ := s
  unfold PbInv flushEnqueue at *
  dsimp only at *
  split_ifs
  · dsimp only
    rw [frameIds_append]
    simpa [frameIds] using h
  · exact h

theorem pbInv_drainWrite (s : PlaybackState) (h : PbInv s) :
    PbInv (drainWrite s) := by
  obtain ⟨q, w, p, t, sp, n⟩ := s
  unfold PbInv drainWrite at *
  dsimp only at *
  split_ifs
  · cases q with
    | nil => exact h
    | cons x rest =>
        cases x with
        | frame i =>
            dsimp only
            rw [List.append_assoc]
            simpa [frameIds] using h
        | sentinel => exact h
  · exact h

theorem pbInv_drainSentinelExit (s : PlaybackState) (h : PbInv s) :
    PbInv (drainSentinelExit s) := by
  obtain ⟨q, w, p, t, sp, n⟩ := s
  unfold PbInv drainSentinelExit at *
  dsimp only at *
  split_ifs
  · cases q with
    | nil => exact h
    | cons x rest =>
        cases x with
        | frame i => exact h
        | sentinel =>
            dsimp only
            simpa [frameIds] using h
  · exact h

theorem pbInv_drainTimeoutExit (s : PlaybackState) (h : PbInv s) :
    PbInv (drainTimeoutExit s) := by
  obtain ⟨q, w, p, t, sp, n⟩ := s
  unfold PbInv drainTimeoutExit at *
  dsimp only at *
  split_ifs <;> exact h

theorem pbInv_pbStop (s : PlaybackState) (h : PbInv s) :
    PbInv (pbStop s) := by
  obtain ⟨q, w, p, t, sp, n⟩ := s
  unfold PbInv pbStop at *
  dsimp only at *
  simpa [frameIds] using (List.sublist_append_left w (frameIds q)).trans h

theorem pbInv_step (s : PlaybackState) (e : PbEvent) (h : PbInv s) :
    PbInv (pbStep s e) := by
  cases e
  · exact pbInv_play_chunk s h
  · exact pbInv_flushEnqueue s h
  · exact pbInv_drainWrite s h
  · exact pbInv_drainSentinelExit s h
  · exact pbInv_drainTimeoutExit s h
  · exact pbInv_pbStop s h

theorem pbInv_run (tr : List PbEvent) :
    ∀ s : PlaybackState, PbInv s → PbInv (pbRun s tr) := by
  induction tr with
  | nil => intro s h; exact h
  | cons e rest ih => intro s h; exact ih (pbStep s e) (pbInv_step s e h)

/-- After an interruption at lower bound `n` with prior writes `w0`:
every written id is an old write or a post-interruption enqueue, every
queued chunk is a post-interruption enqueue, and the enqueue counter
never goes below `n`. -/
def PbLow (w0 : List Nat) (n : Nat) (s : PlaybackState) : Prop :=
  (∀ i ∈ s.written, i ∈ w0 ∨ n ≤ i) ∧
  (∀ i ∈ frameIds s.queue, n ≤ i) ∧
  n ≤ s.nextId

theorem pbLow_play_chunk (w0 : List Nat) (m : Nat) (s : PlaybackState)
    (h : PbLow w0 m s) : PbLow w0 m (play_chunk s) := by
  obtain ⟨q, w, p, t, sp, n⟩ := s
  obtain ⟨hw, hq, hn⟩ := h
  unfold PbLow play_chunk at *
  dsimp only at *
  split_ifs <;>
  · refine ⟨hw, ?_, show m ≤ n + 1 by omega⟩
    intro i hi
    rw [frameIds_append] at hi
    rcases List.mem_append.mp hi with hi | hi
    · exact hq i hi
    · simp [frameIds] at hi
      omega

theorem pbLow_flushEnqueue (w0 : List Nat) (m : Nat) (s : PlaybackState)
    (h : PbLow w0 m s) : PbLow w0 m (flushEnqueue s) := by
  obtain ⟨q, w, p, t, sp, n⟩ := s
  obtain ⟨hw, hq, hn⟩ := h
  unfold PbLow flushEnqueue at *
  dsimp only at *
  split_ifs
  · refine ⟨hw, ?_, hn⟩
    intro i hi
    rw [frameIds_append] at hi
    rcases List.mem_append.mp hi with hi | hi
    · exact hq i hi
    · simp [frameIds] at hi
  · exact ⟨hw, hq, hn⟩

theorem pbLow_drainWrite (w0 : List Nat) (m : Nat) (s : PlaybackState)
    (h : PbLow w0 m s) : PbLow w0 m (drainWrite s) := by
  obtain ⟨q, w, p, t, sp, n⟩ := s
  obtain ⟨hw, hq, hn⟩ := h
  unfold PbLow drainWrite at *
  dsimp only at *
  split_ifs
  · cases q with
    | nil => exact ⟨hw, hq, hn⟩
    | cons x rest =>
        cases x with
        | frame i =>
            refine ⟨?_, ?_, hn⟩
            · intro j hj
              dsimp only at hj
              rcases List.mem_append.mp hj with hj | hj
              · exact hw j hj
              · simp at hj
                subst hj
                exact Or.inr (hq j (by simp [frameIds]))
            · intro j hj
              dsimp only at hj
              exact hq j (by simp [frameIds, hj])
        | sentinel => exact ⟨hw, hq, hn⟩
  · exact ⟨hw, hq, hn⟩

theorem pbLow_drainSentinelExit (w0 : List Nat) (m : Nat) (s : PlaybackState)
    (h : PbLow w0 m s) : PbLow w0 m (drainSentinelExit s) := by
  obtain ⟨q, w, p, t, sp, n⟩ := s
  obtain ⟨hw, hq, hn⟩ := h
  unfold PbLow drainSentinelExit at *
  dsimp only at *
  split_ifs
  · cases q with
    | nil => exact ⟨hw, hq, hn⟩
    | cons x rest =>
        cases x with
        | frame i => exact ⟨hw, hq, hn⟩
        | sentinel =>
            refine ⟨hw, ?_, hn⟩
            intro j hj
            dsimp only at hj
            exact hq j (by simp [frameIds, hj])
  · exact ⟨hw, hq, hn⟩

theorem pbLow_drainTimeoutExit (w0 : List Nat) (m : Nat) (s : PlaybackState)
    (h : PbLow w0 m s) : PbLow w0 m (drainTimeoutExit s) := by
  obtain ⟨q, w, p, t, sp, n⟩ := s
  obtain ⟨hw, hq, hn⟩ := h
  unfold PbLow drainTimeoutExit at *
  dsimp only at *
  split_ifs <;> exact ⟨hw, hq, hn⟩

theorem pbLow_pbStop (w0 : List Nat) (m : Nat) (s : PlaybackState)
    (h : PbLow w0 m s) : PbLow w0 m (pbStop s) := by
  obtain ⟨hw, hq, hn⟩ := h
  exact ⟨hw, by simp [pbStop, frameIds], hn⟩

theorem pbLow_step (w0 : List Nat) (n : Nat) (s : PlaybackState) (e : PbEvent)
    (h : PbLow w0 n s) : PbLow w0 n (pbStep s e) := by
  cases e
  · exact pbLow_play_chunk w0 n s h
  · exact pbLow_flushEnqueue w0 n s h
  · exact pbLow_drainWrite w0 n s h
  · exact pbLow_drainSentinelExit w0 n s h
  · exact pbLow_drainTimeoutExit w0 n s h
  · exact pbLow_pbStop w0 n s h

theorem pbLow_run (w0 : List Nat) (n : Nat) (tr : List PbEvent) :
    ∀ s : PlaybackState, PbLow w0 n s → PbLow w0 n (pbRun s tr) := by
  induction tr with
  | nil => intro s h; exact h
  | cons e rest ih => intro s h; exact ih (pbStep s e) (pbLow_step w0 n s e h)

/-- C5: For every schedule `pre` of playback events before an
interruption (`AudioPlaybackStream.stop`, issued by `_handle_message`
on an `interrupted` message) and every schedule `post` after it:
the bytes written before the interruption are at most the bytes
enqueued before it (for every size assignment `sz`); the interruption
leaves the queue empty (every queued-but-undrained chunk is
discarded); and any chunk ever written was either already written
before the interruption or enqueued after it — no chunk enqueued
before the interruption is written after it. -/
theorem interrupted_empties_playback (pre post : List PbEvent)
    (sz : Nat → Nat) (i : Nat)
    (hi : i ∈ (pbRun PlaybackState.init (pre ++ PbEvent.stop :: post)).written) :
    ((pbRun PlaybackState.init pre).written.map sz).sum
      ≤ ((List.range (pbRun PlaybackState.init pre).nextId).map sz).sum ∧
    (pbStep (pbRun PlaybackState.init pre) PbEvent.stop).queue = [] ∧
    (i ∈ (pbRun PlaybackState.init pre).written ∨
      (pbRun PlaybackState.init pre).nextId ≤ i) := by
  have hinv : PbInv (pbRun PlaybackState.init pre) :=
    pbInv_run pre PlaybackState.init pbInv_init
  refine ⟨?_, rfl, ?_⟩
  · have hsub : (pbRun PlaybackState.init pre).written.Sublist
        (List.range (pbRun PlaybackState.init pre).nextId) :=
      (List.sublist_append_left _ _).trans hinv
    exact (hsub.map sz).sum_le_sum (fun a _ => Nat.zero_le a)
  · have hstart : PbLow (pbRun PlaybackState.init pre).written
        (pbRun PlaybackState.init pre).nextId
        (pbStep (pbRun PlaybackState.init pre) PbEvent.stop) :=
      ⟨fun j hj => Or.inl hj, by simp [pbStep, frameIds], le_rfl⟩
    have hend := pbLow_run _ _ post _ hstart
    rw [pbRun_append] at hi
    exact hend.1 i hi

/-- Witness for `interrupted_empties_playback`: two chunks enqueued and
one drained before the interruption, one chunk enqueued and drained
after it; chunk 2 (written after the stop) was indeed enqueued after
it. -/
theorem interrupted_empties_playback_witness :
    2 ∈ (pbRun PlaybackState.init
        ([PbEvent.play_chunk, PbEvent.play_chunk, PbEvent.drainFrame]
          ++ PbEvent.stop :: [PbEvent.play_chunk, PbEvent.drainFrame])).written ∧
    (((pbRun PlaybackState.init
        [PbEvent.play_chunk, PbEvent.play_chunk, PbEvent.drainFrame]).written.map
          id).sum
      ≤ ((List.range (pbRun PlaybackState.init
          [PbEvent.play_chunk, PbEvent.play_chunk, PbEvent.drainFrame]).nextId).map
            id).sum ∧
    (pbStep (pbRun PlaybackState.init
        [PbEvent.play_chunk, PbEvent.play_chunk, PbEvent.drainFrame])
        PbEvent.stop).queue = [] ∧
    (2 ∈ (pbRun PlaybackState.init
        [PbEvent.play_chunk, PbEvent.play_chunk, PbEvent.drainFrame]).written ∨
      (pbRun PlaybackState.init
        [PbEvent.play_chunk, PbEvent.play_chunk, PbEvent.drainFrame]).nextId ≤ 2)) :=
  ⟨by decide,
    interrupted_empties_playback
      [PbEvent.play_chunk, PbEvent.play_chunk, PbEvent.drainFrame]
      [PbEvent.play_chunk, PbEvent.drainFrame] id 2 (by decide)⟩

/-! ### The drain loop as a function (`_drain_loop`, lines 122-171)

For liveness-style claims the loop is modelled directly as a function
of the sequence of `queue.get()` outcomes it observes: each `get`
either yields the next queued item or times out (`asyncio.TimeoutError`
from `wait_for`); an exhausted oracle means nothing further arrives, so
the next bounded wait times out.  `_playing` stays true throughout —
this models a schedule with no concurrent `stop`, which is the case in
the turn-completion scenario (interruption is covered by the event
system above). -/

/-- Outcome of one `await asyncio.wait_for(self._queue.get(), ...)`. -/
inductive GetOutcome where
  | got (x : PbItem)
  | timedOut
deriving DecidableEq, Repr

/-- Phase 1 of `_drain_loop`: collect up to `buffer_chunks` chunks into
the initial buffer, breaking on a timeout (1.0 s wait) or on the
sentinel.  Returns the buffered chunk ids and the unconsumed rest of
the oracle. -/
def drainBuffer : Nat → List GetOutcome → List Nat × List GetOutcome
  | 0, gets => ([], gets)
  | _ + 1, [] => ([], [])
  | _ + 1, GetOutcome.timedOut :: gets => ([], gets)
  | _ + 1, GetOutcome.got PbItem.sentinel :: gets => ([], gets)
  | n + 1, GetOutcome.got (PbItem.frame i) :: gets =>
      let p := drainBuffer n gets
      (i :: p.1, p.2)

/-- Phase 3 of `_drain_loop`: keep writing chunks as they arrive (2.0 s
bounded wait each) until a timeout or the sentinel ends the loop. -/
def drainRest : List GetOutcome → List Nat
  | [] => []
  | GetOutcome.timedOut :: _ => []
  | GetOutcome.got PbItem.sentinel :: _ => []
  | GetOutcome.got (PbItem.frame i) :: gets => i :: drainRest gets

/-- `_drain_loop`: buffer (phase 1), write the buffered chunks (phase
2), then continue draining (phase 3).  The result is the list of chunk
ids written to the speaker, in order. -/
def drain_loop (buffer_chunks : Nat) (gets : List GetOutcome) : List Nat :=
  let p := drainBuffer buffer_chunks gets
  p.1 ++ drainRest p.2

/-- The remote messages relevant to the playback queue. -/
inductive ConvMsg where
  | audio (frameId : Nat)
  | turn_complete
deriving DecidableEq, Repr

/-- What `_handle_message` (`src/core/controller.py` lines 252-266)
pushes onto the playback queue for each message: an `audio` message is
enqueued by `play_chunk`, and `turn_complete` makes `flush` enqueue
the `None` sentinel. -/
def playbackQueueOf : List ConvMsg → List GetOutcome
  | [] => []
  | ConvMsg.audio i :: rest => GetOutcome.got (PbItem.frame i) :: playbackQueueOf rest
  | ConvMsg.turn_complete :: rest => GetOutcome.got PbItem.sentinel :: playbackQueueOf rest

/-- C6: A remote audio message carrying chunk `i` of `sz i` bytes,
followed by `turn_complete`, makes the drain loop (with the default
`buffer_chunks = 3`) write exactly that chunk and nothing else, so
after the flush completes exactly `sz i` bytes have gone to the
speaker: the chunk is drained before the sentinel and nothing further
is written. -/
theorem audio_turn_complete_writes_exactly (i : Nat) (sz : Nat → Nat) :
    drain_loop 3 (playbackQueueOf [ConvMsg.audio i, ConvMsg.turn_complete]) = [i] ∧
    ((drain_loop 3
        (playbackQueueOf [ConvMsg.audio i, ConvMsg.turn_complete])).map sz).sum
      = sz i := by
  constructor <;> simp [drain_loop, drainBuffer, drainRest, playbackQueueOf]

/-! ## Tool server (`src/tools/server.py`) -/

/-- `ToolParam` dataclass (lines 22-34). -/
structure ToolParam where
  type : String
  description : String
  required : Bool
deriving DecidableEq, Repr

/-- Outcome of invoking a tool handler on an argument map: a dict
result, a non-dict value (carried as its `str(...)` rendering), or a
raised exception (carried as its message).  Dicts are association
lists with string values. -/
inductive HandlerOutcome where
  | retDict (result : List (String × String))
  | retNonDict (rendered : String)
  | raises (message : String)

/-- `ToolDefinition` dataclass (lines 37-51): name, description,
parameters keyed by name (insertion-ordered), and the handler,
modelled by its outcome on each argument map. -/
structure ToolDefinition where
  name : String
  description : String
  parameters : List (String × ToolParam)
  handler : List (String × String) → HandlerOutcome

/-- `ToolServer._tools`: a Python dict keyed by tool name.  Since
`register_tool` always keys a tool by its own `name`, the dict is
represented by its insertion-ordered list of values. -/
def ToolServer := List ToolDefinition

/-- `ToolServer.register_tool` (lines 64-71): `self._tools[tool.name]
= tool` — dict assignment replaces in place when the key exists and
appends otherwise. -/
def ToolServer.register_tool : ToolServer → ToolDefinition → ToolServer
  | [], t => [t]
  | u :: rest, t =>
      if u.name = t.name then t :: rest
      else u :: ToolServer.register_tool rest t

/-- `self._tools.get(name)` (line 181). -/
def ToolServer.get (ts : ToolServer) (name : String) : Option ToolDefinition :=
  ts.find? (fun t => t.name == name)

/-- The parameter schema of one function declaration
(`get_tool_declarations`, lines 151-165): `properties` maps each
parameter name to its upper-cased type and its description;
`required` lists the names of the parameters flagged required, in
declaration order. -/
structure DeclParameters where
  properties : List (String × String × String)
  required : List String
deriving DecidableEq, Repr

/-- One Gemini function declaration (lines 146-167); the `parameters`
key is attached only when the tool has parameters. -/
structure FunctionDeclaration where
  name : String
  description : String
  parameters : Option DeclParameters
deriving DecidableEq, Repr

/-- The declaration built for one tool (loop body of
`get_tool_declarations`, lines 145-167). -/
def declarationOf (t : ToolDefinition) : FunctionDeclaration :=
  { name := t.name
    description := t.description
    parameters :=
      if t.parameters.isEmpty then none
      else some
        { properties := t.parameters.map
            (fun pr => (pr.1, pr.2.type.toUpper, pr.2.description))
          required := (t.parameters.filter (fun pr => pr.2.required)).map
            Prod.fst } }

/-- The required-parameter names exposed by a declaration (the
`required` list of its `parameters` schema, empty when the schema is
absent). -/
def FunctionDeclaration.requiredNames (d : FunctionDeclaration) : List String :=
  match d.parameters with
  | none => []
  | some ps => ps.required

/-- `ToolServer.get_tool_declarations` (lines 134-169): `None` when no
tool is registered, otherwise the list of function declarations (which
the Python wraps as the single `function_declarations` entry). -/
def ToolServer.get_tool_declarations (ts : ToolServer) :
    Option (List FunctionDeclaration) :=
  if ts.isEmpty then none
  else some (ts.map declarationOf)

/-- `ToolServer.execute_tool` (lines 171-194): an unknown name yields
the `Unknown tool` error dict; a handler exception is caught and
converted to a `Tool execution failed` error dict; a non-dict handler
result is wrapped as a single-field `result` dict.  Every exception is
caught in the source, so the model is a total function — `execute_tool`
itself never raises. -/
def ToolServer.execute_tool (ts : ToolServer) (name : String)
    (args : List (String × String)) : List (String × String) :=
  match ToolServer.get ts name with
  | none => [("error", "Unknown tool: " ++ name)]
  | some tool =>
      match tool.handler args with
      | HandlerOutcome.retDict result => result
      | HandlerOutcome.retNonDict rendered => [("result", rendered)]
      | HandlerOutcome.raises message =>
          [("error", "Tool execution failed: " ++ message)]

/-- The `tool_call` branch of `RobotController._handle_message`
(`src/core/controller.py` lines 272-279): execute the tool, then — if
a session is present and connected — send the result back keyed by the
original call id.  Returns the `(call_id, result)` response sent to
the remote session, if any. -/
def handleToolCall (ts : ToolServer) (sessionPresent sessionConnected : Bool)
    (callId name : String) (args : List (String × String)) :
    Option (String × List (String × String)) :=
  let result := ToolServer.execute_tool ts name args
  if sessionPresent && sessionConnected then some (callId, result) else none

/-- C7: A `tool_call` for a name absent from the registry produces
exactly the result dict `error ↦ "Unknown tool: <name>"` — without
raising, since `execute_tool` is total — and the controller sends that
very dict back keyed by the original call id; a handler that raises
yields the `Tool execution failed` error dict, and a handler returning
a non-dict value has it wrapped into a single-field `result` dict. -/
theorem unknown_tool_call_response (ts : ToolServer) (callId name : String)
    (args : List (String × String)) (tr tn : ToolDefinition) (e r : String)
    (hUnknown : ToolServer.get ts name = none)
    (hr : tr.handler args = HandlerOutcome.raises e)
    (hn : tn.handler args = HandlerOutcome.retNonDict r) :
    ToolServer.execute_tool ts name args
      = [("error", "Unknown tool: " ++ name)] ∧
    handleToolCall ts true true callId name args
      = some (callId, [("error", "Unknown tool: " ++ name)]) ∧
    ToolServer.execute_tool [tr] tr.name args
      = [("error", "Tool execution failed: " ++ e)] ∧
    ToolServer.execute_tool [tn] tn.name args = [("result", r)] := by
  have hget : ∀ t : ToolDefinition, ToolServer.get [t] t.name = some t := by
    intro t
    simp [ToolServer.get, List.find?]
  have h1 : ToolServer.execute_tool ts name args
      = [("error", "Unknown tool: " ++ name)] := by
    unfold ToolServer.execute_tool
    rw [hUnknown]
  refine ⟨h1, ?_, ?_, ?_⟩
  · unfold handleToolCall
    rw [h1]
    rfl
  · unfold ToolServer.execute_tool
    rw [hget tr]
    simp [hr]
  · unfold ToolServer.execute_tool
    rw [hget tn]
    simp [hn]

/-- A concrete tool whose handler always raises. -/
def sampleRaisingTool : ToolDefinition :=
  { name := "take_photo"
    description := "Capture a photo from the camera"
    parameters := []
    handler := fun _ => HandlerOutcome.raises "camera offline" }

/-- A concrete tool whose handler returns a non-dict value. -/
def sampleNonDictTool : ToolDefinition :=
  { name := "get_time"
    description := "Return the current time"
    parameters := []
    handler := fun _ => HandlerOutcome.retNonDict "12:00" }

/-- Witness for `unknown_tool_call_response`: an empty registry, the
unknown name `show_text`, and the two sample handlers. -/
theorem unknown_tool_call_response_witness :
    ToolServer.execute_tool [] "show_text" []
      = [("error", "Unknown tool: " ++ "show_text")] ∧
    handleToolCall [] true true "call-7" "show_text" []
      = some ("call-7", [("error", "Unknown tool: " ++ "show_text")]) ∧
    ToolServer.execute_tool [sampleRaisingTool] sampleRaisingTool.name []
      = [("error", "Tool execution failed: " ++ "camera offline")] ∧
    ToolServer.execute_tool [sampleNonDictTool] sampleNonDictTool.name []
      = [("result", "12:00")] :=
  unknown_tool_call_response [] "call-7" "show_text" []
    sampleRaisingTool sampleNonDictTool "camera offline" "12:00"
    (by rfl) (by rfl) (by rfl)

theorem declarationOf_requiredNames (t : ToolDefinition) :
    (declarationOf t).requiredNames
      = (t.parameters.filter (fun pr => pr.2.required)).map Prod.fst := by
  unfold declarationOf FunctionDeclaration.requiredNames
  split_ifs with h
  · rw [List.isEmpty_iff.mp h]
    rfl
  · rfl

theorem find_declaration_of_registered (ts : ToolServer) (t : ToolDefinition) :
    ((ToolServer.register_tool ts t).map declarationOf).find?
      (fun d => d.name == t.name) = some (declarationOf t) := by
  induction ts with
  | nil => simp [ToolServer.register_tool, List.find?, declarationOf]
  | cons u rest ih =>
      rw [ToolServer.register_tool]
      split_ifs with hname
      · simp [List.find?, declarationOf]
      · have hfalse : ((declarationOf u).name == t.name) = false := by
          simp [declarationOf]
          exact hname
        simp only [List.map_cons, List.find?, hfalse]
        exact ih

theorem register_tool_ne_nil (ts : ToolServer) (t : ToolDefinition) :
    ToolServer.register_tool ts t ≠ [] := by
  cases ts with
  | nil => simp [ToolServer.register_tool]
  | cons u rest =>
      rw [ToolServer.register_tool]
      split_ifs <;> simp

/-- C8: Registering a tool and then requesting the declaration list
reproduces that tool's declaration: the list exists (it is never
`None` after a registration), looking up the registered name in it
finds exactly the declaration of the registered tool, and that
declaration carries the registered name, the registered description
and precisely the registered required-parameter names. -/
theorem register_declarations_roundtrip (ts : ToolServer) (t : ToolDefinition) :
    ∃ decls,
      ToolServer.get_tool_declarations (ToolServer.register_tool ts t)
        = some decls ∧
      decls.find? (fun d => d.name == t.name) = some (declarationOf t) ∧
      (declarationOf t).name = t.name ∧
      (declarationOf t).description = t.description ∧
      (declarationOf t).requiredNames
        = (t.parameters.filter (fun pr => pr.2.required)).map Prod.fst := by
  refine ⟨(ToolServer.register_tool ts t).map declarationOf, ?_, ?_, rfl, rfl,
    declarationOf_requiredNames t⟩
  · unfold ToolServer.get_tool_declarations
    rw [if_neg]
    simpa [List.isEmpty_iff] using register_tool_ne_nil ts t
  · exact find_declaration_of_registered ts t

/-! ## Capture pipeline (`src/audio/capture.py`) -/

/-- Observable state of an `AudioCaptureStream` and its microphone:
whether the input stream is open, `_streaming`, and whether the
capture task exists. -/
structure CaptureState where
  micOpen : Bool
  streaming : Bool
  taskPresent : Bool
deriving DecidableEq, Repr

namespace AudioCaptureStream

/-- `AudioCaptureStream.start` (lines 42-58): no-op when already
streaming; otherwise open the microphone only if it is not already
open, set `_streaming`, create the capture task. -/
def start (s : CaptureState) : CaptureState :=
  if s.streaming then s
  else { s with micOpen := true, streaming := true, taskPresent := true }

/-- `AudioCaptureStream.stop` (lines 60-73): clear `_streaming`, cancel
and await the task, then close the input stream whenever it is open —
the source keeps no record of whether this pipeline opened it. -/
def stop (s : CaptureState) : CaptureState :=
  let s1 := { s with streaming := false, taskPresent := false }
  if s1.micOpen then { s1 with micOpen := false } else s1

end AudioCaptureStream

/-- C9 counterexample: with the microphone already open before `start`
(so this pipeline did not open it), `stop` closes it anyway — the
claim predicted it would remain open. -/
theorem capture_stop_closes_preopened_mic :
    (AudioCaptureStream.stop (AudioCaptureStream.start
      { micOpen := true, streaming := false, taskPresent := false })).micOpen
      = false := by decide

/-- C9 (amended): `AudioCaptureStream.stop` closes the microphone
whenever it is open when `stop` runs — whether or not this pipeline
opened it — so the microphone is always closed after `stop` returns. -/
theorem capture_stop_always_closes_mic (s : CaptureState) :
    (AudioCaptureStream.stop s).micOpen = false := by
  unfold AudioCaptureStream.stop
  dsimp only
  split_ifs with h
  · rfl
  · simpa using h

/-! ## Gemini session connection guards (`src/gemini/session.py`) -/

/-- Connection-relevant state of a `GeminiSession`: `_connected`, and
whether `_session` / `_session_cm` are not `None`. -/
structure GeminiSessionState where
  connected : Bool
  sessionPresent : Bool
  sessionCmPresent : Bool
deriving DecidableEq, Repr

namespace GeminiSession

/-- `GeminiSession.__init__` (lines 85-92): nothing connected. -/
def init : GeminiSessionState :=
  { connected := false, sessionPresent := false, sessionCmPresent := false }

/-- `GeminiSession.connect` (lines 94-139), successful case: the
session and its context manager are stored and `_connected` is set. -/
def connect (s : GeminiSessionState) : GeminiSessionState :=
  { s with connected := true, sessionPresent := true, sessionCmPresent := true }

/-- `GeminiSession.close` (lines 203-215): a no-op when `_session_cm`
is `None`; otherwise clears the session, the context manager and
`_connected` (an exception from the underlying exit is caught and the
`finally` block still clears everything). -/
def close (s : GeminiSessionState) : GeminiSessionState :=
  if s.sessionCmPresent then
    { s with connected := false, sessionPresent := false,
             sessionCmPresent := false }
  else s

/-- `GeminiSession.send_audio` (lines 141-155): raises `RuntimeError`
("Gemini session is not connected.") unless connected with a live
session object; otherwise performs the send. -/
def send_audio (s : GeminiSessionState) (_chunk : List Nat) :
    Except String Unit :=
  if !s.connected || !s.sessionPresent then
    Except.error "Gemini session is not connected."
  else Except.ok ()

/-- `GeminiSession.receive` (lines 157-176): iterating the generator
first evaluates the same guard, raising `RuntimeError` when not
connected. -/
def receive (s : GeminiSessionState) : Except String Unit :=
  if !s.connected || !s.sessionPresent then
    Except.error "Gemini session is not connected."
  else Except.ok ()

/-- `GeminiSession.send_tool_response` (lines 178-201): same guard. -/
def send_tool_response (s : GeminiSessionState) (_callId : String)
    (_result : List (String × String)) : Except String Unit :=
  if !s.connected || !s.sessionPresent then
    Except.error "Gemini session is not connected."
  else Except.ok ()

end GeminiSession

/-- C10: On a session that is not connected, `send_audio`, `receive`
and `send_tool_response` all raise `RuntimeError` ("Gemini session is
not connected.") instead of silently doing nothing; both a
never-connected session (`init`) and a connected-then-closed session
are in that unconnected state. -/
theorem session_ops_require_connection (s : GeminiSessionState)
    (chunk : List Nat) (callId : String) (result : List (String × String))
    (h : s.connected = false) :
    GeminiSession.send_audio s chunk
      = Except.error "Gemini session is not connected." ∧
    GeminiSession.receive s
      = Except.error "Gemini session is not connected." ∧
    GeminiSession.send_tool_response s callId result
      = Except.error "Gemini session is not connected." ∧
    GeminiSession.init.connected = false ∧
    (GeminiSession.close (GeminiSession.connect GeminiSession.init)).connected
      = false := by
  refine ⟨?_, ?_, ?_, rfl, rfl⟩ <;>
    simp [GeminiSession.send_audio, GeminiSession.receive,
      GeminiSession.send_tool_response, h]

/-- Witness for `session_ops_require_connection` at the
connected-then-closed session. -/
theorem session_ops_require_connection_witness :
    GeminiSession.send_audio
        (GeminiSession.close (GeminiSession.connect GeminiSession.init)) [0, 1]
      = Except.error "Gemini session is not connected." ∧
    GeminiSession.receive
        (GeminiSession.close (GeminiSession.connect GeminiSession.init))
      = Except.error "Gemini session is not connected." ∧
    GeminiSession.send_tool_response
        (GeminiSession.close (GeminiSession.connect GeminiSession.init))
        "call-1" [("ok", "true")]
      = Except.error "Gemini session is not connected." ∧
    GeminiSession.init.connected = false ∧
    (GeminiSession.close (GeminiSession.connect GeminiSession.init)).connected
      = false :=
  session_ops_require_connection
    (GeminiSession.close (GeminiSession.connect GeminiSession.init))
    [0, 1] "call-1" [("ok", "true")] (by rfl)

end Robco
